import Mathlib

/-
Verification of the evaluation-and-streaming subsystem of the
launchdarkly-relay-proxy-enterprise-demo Python service (src/python/app.py).

The Python functions are shallowly embedded as executable Lean definitions:
Python dict values become the scalar type PyVal (with vnull modelling the
Python None value), a dict key that may be absent or null becomes
Option PyVal (none = key absent, some vnull = key present with a null
value), raised exceptions become Except results, and process-wide mutable
globals become explicit state records threaded through the functions.
-/

/-- Scalar values stored in the Python dictionaries of app.py. -/
inductive PyVal where
  | vnull
  | vbool (b : Bool)
  | vint (n : Int)
  | vstr (s : String)
  deriving DecidableEq

/-- Python truthiness for PyVal: None, False, 0 and the empty string are
falsy; everything else is truthy. -/
def truthy : PyVal → Bool
  | PyVal.vnull => false
  | PyVal.vbool b => b
  | PyVal.vint n => decide (n ≠ 0)
  | PyVal.vstr s => !s.isEmpty

/-- Whether a PyVal is a Python str (isinstance check). -/
def isStr : PyVal → Bool
  | PyVal.vstr _ => true
  | _ => false

/-- The LaunchDarkly client object held in the module-global variable of
app.py. The field `initialized` is the value its is_initialized() method
reports; `id` is the object identity, letting us state that a call does
not replace the client object. -/
structure LDClient where
  id : Nat
  initialized : Bool
  deriving DecidableEq

/-- The module-global SDK state of app.py: the variables _ld_client,
_sdk_initialized and _sdk_initialization_error. -/
structure SdkState where
  ld_client : Option LDClient
  sdk_initialized : Bool
  sdk_initialization_error : Option String
  deriving DecidableEq

/-- is_sdk_initialized() of app.py: _sdk_initialized and _ld_client is not
None and _ld_client.is_initialized(). -/
def is_sdk_initialized (st : SdkState) : Bool :=
  st.sdk_initialized &&
    (match st.ld_client with
     | some c => c.initialized
     | none => false)

/-- The dict the engine returns in detail.reason, restricted to the keys
evaluate_flag inspects. Each field is none when the key is absent and
some vnull when the key is present holding a null value. -/
structure ReasonDict where
  kind : Option PyVal
  ruleIndex : Option PyVal
  ruleId : Option PyVal
  errorKind : Option PyVal
  deriving DecidableEq

/-- The detail record returned by client.variation_detail: the resolved
value and the native reason. reason = none models a detail.reason that is
not a dict (the isinstance check in app.py replaces it with the empty
dict); some rd models a dict. -/
structure EvalDetail where
  value : PyVal
  reason : Option ReasonDict
  deriving DecidableEq

/-- Outcome of the engine call client.variation_detail: either a detail
record, or a raised exception whose str() text is msg. -/
inductive EngineOutcome where
  | ok (detail : EvalDetail)
  | raises (msg : String)
  deriving DecidableEq

/-- The normalized reason dict built by evaluate_flag. kind is always a
present key; the four optional fields are none when evaluate_flag omits
the key from the dict. -/
structure EvalReason where
  kind : PyVal
  ruleIndex : Option PyVal
  ruleId : Option PyVal
  errorKind : Option PyVal
  errorMessage : Option PyVal
  deriving DecidableEq

/-- The result dict of evaluate_flag: value plus normalized reason. -/
structure EvalResult where
  value : PyVal
  reason : EvalReason
  deriving DecidableEq

/-- The copy-if-present-and-non-null step of evaluate_flag for one
optional reason key: the output dict receives the key only when the input
dict has the key holding a non-null value. -/
def copyNonNull (o : Option PyVal) : Option PyVal :=
  match o with
  | some v => if v = PyVal.vnull then none else some v
  | none => none

/-- The reason-normalization block of evaluate_flag (app.py lines
591-608): take detail.reason if it is a dict else the empty dict; kind is
the dict value under "kind" defaulting to "UNKNOWN" when the key is
absent; ruleIndex, ruleId and errorKind are copied only when present and
non-null. -/
def normalize_reason (r : Option ReasonDict) : EvalReason :=
  let rd := r.getD ⟨none, none, none, none⟩
  ⟨rd.kind.getD (PyVal.vstr "UNKNOWN"),
   copyNonNull rd.ruleIndex,
   copyNonNull rd.ruleId,
   copyNonNull rd.errorKind,
   none⟩

/-- evaluate_flag of app.py. The SdkState argument is the module-global
state read through get_ld_client()/is_sdk_initialized(); the
EngineOutcome argument is what the call client.variation_detail(flag_key,
context, default_value) would do. The Bool in the result records whether
that engine call was reached. -/
def evaluate_flag (st : SdkState) (engine : EngineOutcome) (default_value : PyVal) :
    EvalResult × Bool :=
  if !(is_sdk_initialized st) || st.ld_client.isNone then
    (⟨default_value,
      ⟨PyVal.vstr "ERROR", none, none, some (PyVal.vstr "CLIENT_NOT_READY"), none⟩⟩, false)
  else
    match engine with
    | EngineOutcome.raises msg =>
        (⟨default_value,
          ⟨PyVal.vstr "ERROR", none, none, some (PyVal.vstr "EXCEPTION"),
           some (PyVal.vstr msg)⟩⟩, true)
    | EngineOutcome.ok detail =>
        (⟨detail.value, normalize_reason detail.reason⟩, true)

theorem is_sdk_initialized_isSome (st : SdkState) (h : is_sdk_initialized st = true) :
    st.ld_client.isNone = false := by
  cases st with
  | mk c i e =>
    cases c <;> simp [is_sdk_initialized] at h ⊢

/-- Claim C1: whenever the client is not READY (the SDK is not
initialized or the client object is absent), evaluate_flag returns
exactly the supplied default with reason kind ERROR and errorKind
CLIENT_NOT_READY, and the engine call is never reached. -/
theorem evaluate_flag_not_ready (st : SdkState) (engine : EngineOutcome) (d : PyVal)
    (h : is_sdk_initialized st = false ∨ st.ld_client = none) :
    evaluate_flag st engine d =
      (⟨d, ⟨PyVal.vstr "ERROR", none, none, some (PyVal.vstr "CLIENT_NOT_READY"), none⟩⟩,
       false) := by
  rcases h with h | h
  · simp [evaluate_flag, h]
  · simp [evaluate_flag, h, is_sdk_initialized]

/-- Witness for C1 at a concrete not-ready state. -/
theorem evaluate_flag_not_ready_witness :
    evaluate_flag ⟨none, false, none⟩ (EngineOutcome.raises "boom") (PyVal.vstr "Hello from Python!") =
      (⟨PyVal.vstr "Hello from Python!",
        ⟨PyVal.vstr "ERROR", none, none, some (PyVal.vstr "CLIENT_NOT_READY"), none⟩⟩,
       false) :=
  evaluate_flag_not_ready ⟨none, false, none⟩ (EngineOutcome.raises "boom")
    (PyVal.vstr "Hello from Python!") (Or.inr rfl)

/-- Counterexample for claim C2: the engine can raise an exception whose
text str(e) is the empty string (for example Exception() in Python), and
evaluate_flag then stores that empty text as the errorMessage, so the
claimed non-emptiness of errorMessage fails. -/
theorem evaluate_flag_exception_empty_text :
    (evaluate_flag ⟨some ⟨0, true⟩, true, none⟩ (EngineOutcome.raises "")
        (PyVal.vstr "Hello from Python!")).1 =
      ⟨PyVal.vstr "Hello from Python!",
       ⟨PyVal.vstr "ERROR", none, none, some (PyVal.vstr "EXCEPTION"),
        some (PyVal.vstr "")⟩⟩ := by
  decide

/-- Claim C2 (amended): if the client is READY and the engine call raises
an exception, evaluate_flag catches it and returns the supplied default
with reason kind ERROR, errorKind EXCEPTION and errorMessage equal to the
exception text verbatim (so errorMessage is non-empty exactly when the
exception text is non-empty); the exception never propagates. -/
theorem evaluate_flag_exception_caught (st : SdkState) (msg : String) (d : PyVal)
    (h : is_sdk_initialized st = true) :
    evaluate_flag st (EngineOutcome.raises msg) d =
      (⟨d, ⟨PyVal.vstr "ERROR", none, none, some (PyVal.vstr "EXCEPTION"),
            some (PyVal.vstr msg)⟩⟩, true) := by
  simp [evaluate_flag, h, is_sdk_initialized_isSome st h]

/-- Witness for C2 (amended) at a concrete ready state. -/
theorem evaluate_flag_exception_caught_witness :
    evaluate_flag ⟨some ⟨7, true⟩, true, none⟩ (EngineOutcome.raises "connection lost")
        (PyVal.vstr "Hello from Python!") =
      (⟨PyVal.vstr "Hello from Python!",
        ⟨PyVal.vstr "ERROR", none, none, some (PyVal.vstr "EXCEPTION"),
         some (PyVal.vstr "connection lost")⟩⟩, true) :=
  evaluate_flag_exception_caught ⟨some ⟨7, true⟩, true, none⟩ "connection lost"
    (PyVal.vstr "Hello from Python!") (by decide)

theorem copyNonNull_ne_null (o : Option PyVal) : copyNonNull o ≠ some PyVal.vnull := by
  cases o with
  | none => simp [copyNonNull]
  | some v => simp only [copyNonNull]; split <;> simp_all

theorem copyNonNull_eq_some (o : Option PyVal) (v : PyVal) (h : copyNonNull o = some v) :
    o = some v := by
  cases o with
  | none => simp [copyNonNull] at h
  | some w => simp only [copyNonNull] at h; split at h <;> simp_all

theorem copyNonNull_of_some (v : PyVal) (hv : v ≠ PyVal.vnull) :
    copyNonNull (some v) = some v := by
  simp [copyNonNull, hv]

/-- Counterexample for claim C7: when the engine returns a reason dict
whose kind key is present but holds a null value, evaluate_flag passes
the null through (dict.get with a default only fires on an absent key),
so the normalized kind is null, refuting the claimed non-nullness. -/
theorem evaluate_flag_null_kind_passthrough :
    (evaluate_flag ⟨some ⟨0, true⟩, true, none⟩
        (EngineOutcome.ok ⟨PyVal.vstr "on", some ⟨some PyVal.vnull, none, none, none⟩⟩)
        (PyVal.vstr "Hello from Python!")).1.reason.kind = PyVal.vnull := by
  decide

/-- Claim C7 (amended): on a successful engine call the normalized reason
has a kind key that is always present; it is UNKNOWN when the native
reason is not a dict or lacks the kind key, and otherwise is the native
kind value verbatim (null only when the engine itself supplied a null
kind). The optional keys ruleIndex, ruleId and errorKind are emitted only
when the native dict holds them with a non-null value, with that exact
value, and are omitted entirely otherwise: no null placeholder is ever
emitted for them, and errorMessage is never emitted on this path. -/
theorem evaluate_flag_reason_normalized (st : SdkState) (detail : EvalDetail) (d : PyVal)
    (h : is_sdk_initialized st = true) :
    (evaluate_flag st (EngineOutcome.ok detail) d).1.value = detail.value ∧
    (evaluate_flag st (EngineOutcome.ok detail) d).1.reason.errorMessage = none ∧
    (detail.reason = none →
      (evaluate_flag st (EngineOutcome.ok detail) d).1.reason.kind = PyVal.vstr "UNKNOWN") ∧
    (∀ rd : ReasonDict, detail.reason = some rd → rd.kind = none →
      (evaluate_flag st (EngineOutcome.ok detail) d).1.reason.kind = PyVal.vstr "UNKNOWN") ∧
    (∀ rd : ReasonDict, ∀ v : PyVal, detail.reason = some rd → rd.kind = some v →
      (evaluate_flag st (EngineOutcome.ok detail) d).1.reason.kind = v) ∧
    ((evaluate_flag st (EngineOutcome.ok detail) d).1.reason.ruleIndex ≠ some PyVal.vnull ∧
     (evaluate_flag st (EngineOutcome.ok detail) d).1.reason.ruleId ≠ some PyVal.vnull ∧
     (evaluate_flag st (EngineOutcome.ok detail) d).1.reason.errorKind ≠ some PyVal.vnull) ∧
    (∀ v : PyVal, (evaluate_flag st (EngineOutcome.ok detail) d).1.reason.ruleIndex = some v →
      ∃ rd : ReasonDict, detail.reason = some rd ∧ rd.ruleIndex = some v) ∧
    (∀ v : PyVal, (evaluate_flag st (EngineOutcome.ok detail) d).1.reason.ruleId = some v →
      ∃ rd : ReasonDict, detail.reason = some rd ∧ rd.ruleId = some v) ∧
    (∀ v : PyVal, (evaluate_flag st (EngineOutcome.ok detail) d).1.reason.errorKind = some v →
      ∃ rd : ReasonDict, detail.reason = some rd ∧ rd.errorKind = some v) ∧
    (∀ rd : ReasonDict, ∀ v : PyVal, detail.reason = some rd → v ≠ PyVal.vnull →
      (rd.ruleIndex = some v →
        (evaluate_flag st (EngineOutcome.ok detail) d).1.reason.ruleIndex = some v) ∧
      (rd.ruleId = some v →
        (evaluate_flag st (EngineOutcome.ok detail) d).1.reason.ruleId = some v) ∧
      (rd.errorKind = some v →
        (evaluate_flag st (EngineOutcome.ok detail) d).1.reason.errorKind = some v)) := by
  have hns := is_sdk_initialized_isSome st h
  simp only [evaluate_flag, h, hns, Bool.not_true, Bool.false_or, Bool.false_eq_true,
    if_false, ite_false]
  refine ⟨by trivial, by trivial, ?_, ?_, ?_, ?_, ?_, ?_, ?_, ?_⟩
  · intro hr; simp [normalize_reason, hr]
  · intro rd hr hk; simp [normalize_reason, hr, hk]
  · intro rd v hr hk; simp [normalize_reason, hr, hk]
  · exact ⟨copyNonNull_ne_null _, copyNonNull_ne_null _, copyNonNull_ne_null _⟩
  · intro v hv
    cases hr : detail.reason with
    | none => simp [normalize_reason, hr, copyNonNull] at hv
    | some rd =>
      simp only [normalize_reason, hr, Option.getD_some] at hv
      exact ⟨rd, rfl, copyNonNull_eq_some _ _ hv⟩
  · intro v hv
    cases hr : detail.reason with
    | none => simp [normalize_reason, hr, copyNonNull] at hv
    | some rd =>
      simp only [normalize_reason, hr, Option.getD_some] at hv
      exact ⟨rd, rfl, copyNonNull_eq_some _ _ hv⟩
  · intro v hv
    cases hr : detail.reason with
    | none => simp [normalize_reason, hr, copyNonNull] at hv
    | some rd =>
      simp only [normalize_reason, hr, Option.getD_some] at hv
      exact ⟨rd, rfl, copyNonNull_eq_some _ _ hv⟩
  · intro rd v hr hv
    refine ⟨?_, ?_, ?_⟩ <;> intro hf <;>
      simp [normalize_reason, hr, hf, copyNonNull_of_some v hv]

/-- Witness for C7 (amended) at a concrete ready state and engine reason. -/
theorem evaluate_flag_reason_normalized_witness :
    (evaluate_flag ⟨some ⟨3, true⟩, true, none⟩
        (EngineOutcome.ok ⟨PyVal.vstr "on",
          some ⟨some (PyVal.vstr "RULE_MATCH"), some (PyVal.vint 2), some PyVal.vnull, none⟩⟩)
        (PyVal.vstr "off")).1.reason.kind = PyVal.vstr "RULE_MATCH" := by
  have hmain := evaluate_flag_reason_normalized ⟨some ⟨3, true⟩, true, none⟩
    ⟨PyVal.vstr "on",
      some ⟨some (PyVal.vstr "RULE_MATCH"), some (PyVal.vint 2), some PyVal.vnull, none⟩⟩
    (PyVal.vstr "off") (by decide)
  exact hmain.2.2.2.2.1 ⟨some (PyVal.vstr "RULE_MATCH"), some (PyVal.vint 2),
    some PyVal.vnull, none⟩ (PyVal.vstr "RULE_MATCH") rfl rfl

/-- The 32-bit left rotation used by SHA-1. -/
def rotl32 (n x : Nat) : Nat := ((x <<< n) ||| (x >>> (32 - n))) &&& 0xFFFFFFFF

/-- Big-endian 32-bit word from four bytes. -/
def word32 (a b c d : Nat) : Nat := ((a * 256 + b) * 256 + c) * 256 + d

/-- Big-endian 8-byte encoding of a 64-bit length. -/
def be64 (n : Nat) : List Nat :=
  [(n >>> 56) &&& 255, (n >>> 48) &&& 255, (n >>> 40) &&& 255, (n >>> 32) &&& 255,
   (n >>> 24) &&& 255, (n >>> 16) &&& 255, (n >>> 8) &&& 255, n &&& 255]

/-- The SHA-1 padding: append 0x80, zero bytes up to 56 mod 64, then the
bit length as a big-endian 64-bit integer. -/
def sha1Pad (msg : List Nat) : List Nat :=
  msg ++ 0x80 :: List.replicate ((119 - msg.length % 64) % 64) 0 ++ be64 (msg.length * 8)

/-- Group bytes into big-endian 32-bit words. -/
def toWords : List Nat → List Nat
  | a :: b :: c :: d :: rest => word32 a b c d :: toWords rest
  | _ => []

/-- Extend the 16-word schedule of a SHA-1 block by n further words. -/
def extendW : Array Nat → Nat → Array Nat
  | w, 0 => w
  | w, n + 1 =>
    let i := w.size
    let x := rotl32 1 ((w.getD (i - 3) 0) ^^^ (w.getD (i - 8) 0) ^^^
                      (w.getD (i - 14) 0) ^^^ (w.getD (i - 16) 0))
    extendW (w.push x) n

/-- The round function of SHA-1. -/
def sha1F (t b c d : Nat) : Nat :=
  if t < 20 then (b &&& c) ||| ((b ^^^ 0xFFFFFFFF) &&& d)
  else if t < 40 then b ^^^ c ^^^ d
  else if t < 60 then (b &&& c) ||| (b &&& d) ||| (c &&& d)
  else b ^^^ c ^^^ d

/-- The round constants of SHA-1. -/
def sha1K (t : Nat) : Nat :=
  if t < 20 then 0x5A827999 else if t < 40 then 0x6ED9EBA1
  else if t < 60 then 0x8F1BBCDC else 0xCA62C1D6

/-- One SHA-1 round on the five-word working state. -/
def sha1Round (w : Array Nat) (st : Nat × Nat × Nat × Nat × Nat) (t : Nat) :
    Nat × Nat × Nat × Nat × Nat :=
  match st with
  | (a, b, c, d, e) =>
    ((rotl32 5 a + sha1F t b c d + e + sha1K t + w.getD t 0) &&& 0xFFFFFFFF,
     a, rotl32 30 b, c, d)

/-- Process one 64-byte block into the running SHA-1 state. -/
def sha1Block (h : Nat × Nat × Nat × Nat × Nat) (block : List Nat) :
    Nat × Nat × Nat × Nat × Nat :=
  match h with
  | (h0, h1, h2, h3, h4) =>
    let w := extendW (Array.mk (toWords block)) 64
    match (List.range 80).foldl (sha1Round w) (h0, h1, h2, h3, h4) with
    | (a, b, c, d, e) =>
      ((h0 + a) &&& 0xFFFFFFFF, (h1 + b) &&& 0xFFFFFFFF, (h2 + c) &&& 0xFFFFFFFF,
       (h3 + d) &&& 0xFFFFFFFF, (h4 + e) &&& 0xFFFFFFFF)

/-- Split a byte list into 64-byte chunks; the fuel argument is the list
length, which bounds the number of chunks. -/
def chunks64 : Nat → List Nat → List (List Nat)
  | 0, _ => []
  | _, [] => []
  | fuel + 1, l => l.take 64 :: chunks64 fuel (l.drop 64)

/-- The 160-bit SHA-1 digest of a byte sequence, as a natural number
(hashlib.sha1(data), with the hexdigest read as a base-16 integer). -/
def sha1 (msg : List Nat) : Nat :=
  let padded := sha1Pad msg
  match (chunks64 padded.length padded).foldl sha1Block
      (0x67452301, 0xEFCDAB89, 0x98BADCFE, 0x10325476, 0xC3D2E1F0) with
  | (h0, h1, h2, h3, h4) =>
    ((((h0 <<< 32 ||| h1) <<< 32 ||| h2) <<< 32 ||| h3) <<< 32) ||| h4

/-- The UTF-8 encoding of one Unicode code point. -/
def utf8Char (n : Nat) : List Nat :=
  if n < 0x80 then [n]
  else if n < 0x800 then [0xC0 ||| (n >>> 6), 0x80 ||| (n &&& 0x3F)]
  else if n < 0x10000 then
    [0xE0 ||| (n >>> 12), 0x80 ||| ((n >>> 6) &&& 0x3F), 0x80 ||| (n &&& 0x3F)]
  else
    [0xF0 ||| (n >>> 18), 0x80 ||| ((n >>> 12) &&& 0x3F),
     0x80 ||| ((n >>> 6) &&& 0x3F), 0x80 ||| (n &&& 0x3F)]

/-- The UTF-8 bytes of a string (the .encode call of app.py). -/
def utf8Bytes (s : String) : List Nat :=
  (s.data.map (fun c => utf8Char c.toNat)).flatten

/-- The hexadecimal digits of a digest, most significant first: digit i of
n digits is d / 16 ^ (n - 1 - i) mod 16. This is the hexdigest string of
hashlib with each character read as its value. -/
def hexDigitsAux : Nat → Nat → List Nat
  | _, 0 => []
  | d, n + 1 => (d / 16 ^ n % 16) :: hexDigitsAux d n

/-- Parse a big-endian list of base-16 digits (the int(s, 16) call). -/
def fromHexDigits (l : List Nat) : Nat := l.foldl (fun acc x => acc * 16 + x) 0

/-- The record calculate_hash_value returns: hashValue, bucketValue and
the salt. The Python float division is embedded as exact rational
division. -/
structure HashInfo where
  hashValue : Nat
  bucketValue : ℚ
  salt : String
  deriving DecidableEq

/-- calculate_hash_value of app.py: reject any empty input, concatenate
flag_key "." salt "." context_key, SHA-1 the UTF-8 bytes, read the first
15 hexdigest characters as a base-16 integer, and divide by
0xFFFFFFFFFFFFFFF = 1152921504606846975. -/
def calculate_hash_value (flag_key context_key salt : String) : Option HashInfo :=
  if flag_key.isEmpty || context_key.isEmpty || salt.isEmpty then none
  else
    let hash_input := flag_key ++ "." ++ salt ++ "." ++ context_key
    let sha1_digest := sha1 (utf8Bytes hash_input)
    let hash_value := fromHexDigits ((hexDigitsAux sha1_digest 40).take 15)
    some ⟨hash_value, (hash_value : ℚ) / 1152921504606846975, salt⟩

/-- Claim C6: when any of the three string inputs is empty,
calculate_hash_value returns no result. -/
theorem calculate_hash_value_empty_input (flag_key context_key salt : String)
    (h : flag_key = "" ∨ context_key = "" ∨ salt = "") :
    calculate_hash_value flag_key context_key salt = none := by
  have he : "".isEmpty = true := rfl
  rcases h with h | h | h <;> simp [calculate_hash_value, h, he]

/-- Witness for C6 at a concrete empty input. -/
theorem calculate_hash_value_empty_input_witness :
    calculate_hash_value "" "user-123" "94b881a3be5c449d99dbbe1a92ca3fa0" = none :=
  calculate_hash_value_empty_input "" "user-123" "94b881a3be5c449d99dbbe1a92ca3fa0"
    (Or.inl rfl)

set_option maxRecDepth 40000

/-- The SHA-1 computation of app.py at the documented example input: the
hexdigest of user-message.94b881a3be5c449d99dbbe1a92ca3fa0.user-123
starts with 038ec7183c1d737, which parses to 16022570981775159. -/
theorem example_hash_value :
    fromHexDigits ((hexDigitsAux (sha1 (utf8Bytes
      ("user-message" ++ "." ++ "94b881a3be5c449d99dbbe1a92ca3fa0" ++ "." ++ "user-123"))) 40).take 15)
      = 16022570981775159 := by
  decide

/-- Counterexample for claim C5: at flagKey "user-message", contextKey
"user-123" and salt "94b881a3be5c449d99dbbe1a92ca3fa0" the code hashes
the string user-message.94b881a3be5c449d99dbbe1a92ca3fa0.user-123, whose
SHA-1 hexdigest starts with 038ec7183c1d737, so hashValue is
16022570981775159 and bucketValue is below 0.014 - more than 0.43 away
from the claimed 0.4508281985373982. -/
theorem calculate_hash_value_example_refuted :
    calculate_hash_value "user-message" "user-123" "94b881a3be5c449d99dbbe1a92ca3fa0" =
      some ⟨16022570981775159, (16022570981775159 : ℚ) / 1152921504606846975,
            "94b881a3be5c449d99dbbe1a92ca3fa0"⟩ ∧
    (16022570981775159 : ℚ) / 1152921504606846975 < 14 / 1000 ∧
    (4508281985373982 : ℚ) / 10 ^ 16 - (16022570981775159 : ℚ) / 1152921504606846975 >
      43 / 100 := by
  have hc : ("user-message".isEmpty || "user-123".isEmpty ||
      "94b881a3be5c449d99dbbe1a92ca3fa0".isEmpty) = false := by decide
  refine ⟨?_, by norm_num, by norm_num⟩
  simp only [calculate_hash_value, hc, Bool.false_eq_true, if_false, example_hash_value]
  norm_num

/-- Claim C5 (amended): for those specific inputs calculate_hash_value
returns hashValue 16022570981775159 and bucketValue
16022570981775159 / 1152921504606846975, which is approximately
0.0138973650137950 (not 0.4508281985373982 as the stale docstring
example claims). -/
theorem calculate_hash_value_example_actual :
    calculate_hash_value "user-message" "user-123" "94b881a3be5c449d99dbbe1a92ca3fa0" =
      some ⟨16022570981775159, (16022570981775159 : ℚ) / 1152921504606846975,
            "94b881a3be5c449d99dbbe1a92ca3fa0"⟩ ∧
    (138973650137950 : ℚ) / 10 ^ 16 < (16022570981775159 : ℚ) / 1152921504606846975 ∧
    (16022570981775159 : ℚ) / 1152921504606846975 < (138973650137951 : ℚ) / 10 ^ 16 := by
  have hc : ("user-message".isEmpty || "user-123".isEmpty ||
      "94b881a3be5c449d99dbbe1a92ca3fa0".isEmpty) = false := by decide
  refine ⟨?_, by norm_num, by norm_num⟩
  simp only [calculate_hash_value, hc, Bool.false_eq_true, if_false, example_hash_value]
  norm_num

theorem foldl_hex_bound (l : List Nat) (acc : Nat) (h : ∀ x ∈ l, x < 16) :
    List.foldl (fun a x => a * 16 + x) acc l < (acc + 1) * 16 ^ l.length := by
  induction l generalizing acc with
  | nil => simp
  | cons x xs ih =>
    have hx : x < 16 := h x (List.mem_cons_self x xs)
    have hrest : ∀ y ∈ xs, y < 16 := fun y hy => h y (List.mem_cons_of_mem x hy)
    have h1 := ih (acc * 16 + x) hrest
    have h2 : (acc * 16 + x + 1) * 16 ^ xs.length ≤ (acc + 1) * 16 ^ (x :: xs).length := by
      simp only [List.length_cons, pow_succ]
      calc (acc * 16 + x + 1) * 16 ^ xs.length
          ≤ ((acc + 1) * 16) * 16 ^ xs.length := by
            have : acc * 16 + x + 1 ≤ (acc + 1) * 16 := by omega
            exact Nat.mul_le_mul_right _ this
        _ = (acc + 1) * (16 ^ xs.length * 16) := by ring
    calc List.foldl (fun a x => a * 16 + x) acc (x :: xs)
        = List.foldl (fun a x => a * 16 + x) (acc * 16 + x) xs := rfl
      _ < (acc * 16 + x + 1) * 16 ^ xs.length := h1
      _ ≤ (acc + 1) * 16 ^ (x :: xs).length := h2

theorem hexDigitsAux_lt_16 (d n : Nat) : ∀ x ∈ hexDigitsAux d n, x < 16 := by
  induction n with
  | zero => intro x hx; simp [hexDigitsAux] at hx
  | succ m ih =>
    intro x hx
    simp only [hexDigitsAux, List.mem_cons] at hx
    rcases hx with hx | hx
    · subst hx; exact Nat.mod_lt _ (by omega)
    · exact ih x hx

theorem fromHexDigits_le (l : List Nat) (h : ∀ x ∈ l, x < 16) :
    fromHexDigits l < 16 ^ l.length := by
  have := foldl_hex_bound l 0 h
  simpa [fromHexDigits] using this

/-- What is actually provable of the claimed interval of bucketValue:
whenever calculate_hash_value returns a record, hashValue is at most
0xFFFFFFFFFFFFFFF and bucketValue lies in the closed interval from 0 to
1, with bucketValue strictly below 1 exactly when hashValue is not the
maximal 15-hex-digit value. Whether some input attains the maximum (and
hence bucketValue 1) is equivalent to a SHA-1 preimage question. -/
theorem calculate_hash_value_bucket_range (f c s : String) (info : HashInfo)
    (h : calculate_hash_value f c s = some info) :
    info.hashValue ≤ 1152921504606846975 ∧
    0 ≤ info.bucketValue ∧ info.bucketValue ≤ 1 ∧
    (info.bucketValue < 1 ↔ info.hashValue ≠ 1152921504606846975) := by
  simp only [calculate_hash_value] at h
  split at h
  · exact absurd h (by simp)
  · have hinfo := Option.some.inj h
    set hv := fromHexDigits ((hexDigitsAux (sha1 (utf8Bytes (f ++ "." ++ s ++ "." ++ c))) 40).take 15) with hhv
    have hlt : hv < 16 ^ 15 := by
      have hmem : ∀ x ∈ (hexDigitsAux (sha1 (utf8Bytes (f ++ "." ++ s ++ "." ++ c))) 40).take 15,
          x < 16 := by
        intro x hx
        exact hexDigitsAux_lt_16 _ _ x (List.take_subset _ _ hx)
      have hlen : ((hexDigitsAux (sha1 (utf8Bytes (f ++ "." ++ s ++ "." ++ c))) 40).take 15).length ≤ 15 := by
        simp [List.length_take]
      calc hv < 16 ^ ((hexDigitsAux (sha1 (utf8Bytes (f ++ "." ++ s ++ "." ++ c))) 40).take 15).length :=
            fromHexDigits_le _ hmem
        _ ≤ 16 ^ 15 := Nat.pow_le_pow_right (by omega) hlen
    have hle : hv ≤ 1152921504606846975 := by
      have : (16 : Nat) ^ 15 = 1152921504606846976 := by norm_num
      omega
    have hval : info.hashValue = hv := by rw [← hinfo]
    have hbv : info.bucketValue = (hv : ℚ) / 1152921504606846975 := by rw [← hinfo]
    refine ⟨by rw [hval]; exact hle, ?_, ?_, ?_⟩
    · rw [hbv]; positivity
    · rw [hbv]
      rw [div_le_one (by norm_num)]
      exact_mod_cast hle
    · rw [hbv, hval]
      rw [div_lt_one (by norm_num)]
      constructor
      · intro hlt1 heq
        rw [heq] at hlt1
        norm_num at hlt1
      · intro hne
        have : hv < 1152921504606846975 := by omega
        exact_mod_cast this

/-- The whitespace characters removed by the Python str.strip method (the
ASCII ones; the attributes of this service are ASCII). -/
def pyWhitespace (c : Char) : Bool :=
  c = ' ' || c = '\t' || c = '\n' || c = '\r' || c = '\x0b' || c = '\x0c'

/-- str.strip of Python: drop whitespace from both ends. -/
def pyStrip (s : String) : String :=
  ⟨((s.data.dropWhile pyWhitespace).reverse.dropWhile pyWhitespace).reverse⟩

/-- The exceptions the Context Builder entry points of app.py raise. -/
inductive CtxError where
  | valueError (msg : String)
  | typeError (msg : String)
  | runtimeError (msg : String)
  deriving DecidableEq

/-- The user part of the multi-context the builders construct: key,
anonymous flag and the three optional string attributes (none = attribute
not set on the builder). -/
structure UserContext where
  key : String
  anonymous : Bool
  email : Option String
  name : Option String
  location : Option String
  deriving DecidableEq

/-- The multi-context of app.py: the user sub-context plus the fixed
container sub-context, identified by its key. -/
structure MultiContext where
  user : UserContext
  containerKey : String
  deriving DecidableEq

/-- The context_data dict argument of buildContext, restricted to the
keys the function reads. none = key absent, some vnull = key present
holding None. -/
structure ContextData where
  key : Option PyVal
  email : Option PyVal
  name : Option PyVal
  location : Option PyVal
  anonymous : Option PyVal
  deriving DecidableEq

/-- The attribute step shared by both builders: the value is set only
when it is a truthy string whose stripped form is non-empty, and the
stripped form is stored. In buildContext this models the conjunction
email and isinstance(email, str) and email.strip(); non-string truthy
values are silently skipped there. -/
def pyAttr (v : PyVal) : Option String :=
  match v with
  | PyVal.vstr s => if pyStrip s = "" then none else some (pyStrip s)
  | _ => none

/-- The dict-get-then-set attribute step of buildContext on an optional
dict entry. -/
def strAttr (o : Option PyVal) : Option String :=
  pyAttr (o.getD PyVal.vnull)

/-- buildContext of app.py (the raw-dict entry point). The key is only
checked for Python truthiness (absent, None, empty string, False and 0
fail; a whitespace-only string passes and is stored verbatim). A truthy
non-string key is modelled as the wrapped RuntimeError of the inner
builder call; no claim exercises that branch. -/
def buildContext (context_data : Option ContextData) : Except CtxError MultiContext :=
  match context_data with
  | none => Except.error (CtxError.valueError "context_data cannot be None")
  | some data =>
    let context_key := data.key.getD PyVal.vnull
    if truthy context_key = false then
      Except.error (CtxError.valueError "context_data must contain a key field")
    else
      match context_key with
      | PyVal.vstr s =>
          Except.ok ⟨⟨s, truthy (data.anonymous.getD (PyVal.vbool false)),
                      strAttr data.email, strAttr data.name, strAttr data.location⟩,
                     "python-app"⟩
      | _ => Except.error (CtxError.runtimeError "Failed to build multi-context")

/-- create_context of app.py (the raw-parameter entry point): rejects a
None, non-string, empty or whitespace-only key with ValueError, rejects
non-string non-None optional attributes with TypeError, strips the key,
and sets each optional attribute only when truthy and non-blank after
stripping (the missing-at-sign email case only logs a warning and is not
an error). The created user context never sets the anonymous flag. -/
def create_context (context_key email name location : PyVal) : Except CtxError MultiContext :=
  if context_key = PyVal.vnull then
    Except.error (CtxError.valueError "context_key cannot be None")
  else
    match context_key with
    | PyVal.vstr s =>
      if pyStrip s = "" then
        Except.error (CtxError.valueError "context_key cannot be empty or whitespace")
      else if email ≠ PyVal.vnull ∧ isStr email = false then
        Except.error (CtxError.typeError "email must be a string")
      else if name ≠ PyVal.vnull ∧ isStr name = false then
        Except.error (CtxError.typeError "name must be a string")
      else if location ≠ PyVal.vnull ∧ isStr location = false then
        Except.error (CtxError.typeError "location must be a string")
      else
        Except.ok ⟨⟨pyStrip s, false, pyAttr email, pyAttr name, pyAttr location⟩,
                   "python-app"⟩
    | _ => Except.error (CtxError.valueError "context_key must be a string")

/-- Counterexample for claim C3: a whitespace-only key is truthy in
Python, so buildContext does not raise for it - it builds a full
multi-context whose user key is the whitespace string verbatim, refuting
the claim that both entry points reject whitespace-only keys. -/
theorem buildContext_whitespace_key_accepted :
    buildContext (some ⟨some (PyVal.vstr " "), none, none, none, none⟩) =
      Except.ok ⟨⟨" ", false, none, none, none⟩, "python-app"⟩ := rfl

/-- Claim C3 (amended): both entry points raise ValueError for an absent,
None or empty key (buildContext for every Python-falsy key), and
create_context additionally raises ValueError for a non-string or
whitespace-only key; but buildContext accepts a whitespace-only
(hence truthy) string key and builds the multi-context with that key
stored verbatim, so only create_context rejects whitespace-only keys. -/
theorem context_key_validation (data : ContextData) (ck e n l : PyVal) :
    buildContext none = Except.error (CtxError.valueError "context_data cannot be None") ∧
    (truthy (data.key.getD PyVal.vnull) = false →
      buildContext (some data) =
        Except.error (CtxError.valueError "context_data must contain a key field")) ∧
    (ck = PyVal.vnull →
      ∃ msg, create_context ck e n l = Except.error (CtxError.valueError msg)) ∧
    (∀ s : String, ck = PyVal.vstr s → pyStrip s = "" →
      ∃ msg, create_context ck e n l = Except.error (CtxError.valueError msg)) ∧
    (isStr ck = false → ck ≠ PyVal.vnull →
      ∃ msg, create_context ck e n l = Except.error (CtxError.valueError msg)) ∧
    (∀ s : String, data.key = some (PyVal.vstr s) → s ≠ "" →
      ∃ mc : MultiContext, buildContext (some data) = Except.ok mc ∧ mc.user.key = s) := by
  refine ⟨rfl, ?_, ?_, ?_, ?_, ?_⟩
  · intro h
    simp [buildContext, h]
  · intro h
    subst h
    exact ⟨"context_key cannot be None", by simp [create_context]⟩
  · intro s h hs
    subst h
    refine ⟨"context_key cannot be empty or whitespace", ?_⟩
    simp [create_context, hs]
  · intro h hn
    cases ck with
    | vnull => exact absurd rfl hn
    | vstr s => simp [isStr] at h
    | vbool b => exact ⟨"context_key must be a string", by simp [create_context]⟩
    | vint m => exact ⟨"context_key must be a string", by simp [create_context]⟩
  · intro s h hs
    have hkey : data.key.getD PyVal.vnull = PyVal.vstr s := by rw [h]; rfl
    have hie : s.isEmpty = false := by
      simp only [← Bool.not_eq_true, String.isEmpty_iff]
      exact hs
    have htr : truthy (PyVal.vstr s) = true := by simp [truthy, hie]
    refine ⟨⟨⟨s, truthy (data.anonymous.getD (PyVal.vbool false)),
             strAttr data.email, strAttr data.name, strAttr data.location⟩, "python-app"⟩, ?_, rfl⟩
    simp [buildContext, hkey, htr]

/-- Witness for C3 (amended): create_context rejects the None key. -/
theorem context_key_validation_witness :
    ∃ msg, create_context PyVal.vnull PyVal.vnull PyVal.vnull PyVal.vnull =
      Except.error (CtxError.valueError msg) :=
  (context_key_validation ⟨none, none, none, none, none⟩ PyVal.vnull PyVal.vnull
    PyVal.vnull PyVal.vnull).2.2.1 rfl

/-- Counterexample for claim C8: an explicitly-supplied empty-string
email is falsy in Python, so create_context skips it exactly like
buildContext does - the resulting context has no email attribute at all,
refuting the claim that the raw-parameter entry point stores it as an
empty-string attribute. -/
theorem create_context_empty_email_omitted :
    create_context (PyVal.vstr "user-123") (PyVal.vstr "") PyVal.vnull PyVal.vnull =
      Except.ok ⟨⟨"user-123", false, none, none, none⟩, "python-app"⟩ := rfl

/-- Claim C8 (amended): the two entry points do not differ on
empty-string attributes - both silently omit an email/name/location
supplied as the empty string (both guard with the Python-falsiness of the
raw value before stripping), so neither ever stores an empty-string
attribute for them. -/
theorem empty_string_attributes_omitted (s : String) (h : pyStrip s ≠ "") :
    buildContext (some ⟨some (PyVal.vstr s), some (PyVal.vstr ""), some (PyVal.vstr ""),
        some (PyVal.vstr ""), none⟩) =
      Except.ok ⟨⟨s, false, none, none, none⟩, "python-app"⟩ ∧
    create_context (PyVal.vstr s) (PyVal.vstr "") (PyVal.vstr "") (PyVal.vstr "") =
      Except.ok ⟨⟨pyStrip s, false, none, none, none⟩, "python-app"⟩ := by
  have hne : s ≠ "" := by
    intro heq
    subst heq
    exact h rfl
  have hie : s.isEmpty = false := by
    simp only [← Bool.not_eq_true, String.isEmpty_iff]
    exact hne
  have htr : truthy (PyVal.vstr s) = true := by simp [truthy, hie]
  have hps : pyStrip "" = "" := rfl
  have hanon : truthy (PyVal.vbool false) = false := rfl
  constructor
  · simp [buildContext, htr, strAttr, pyAttr, hps, hanon]
  · simp [create_context, h, isStr, pyAttr, hps]

/-- Witness for C8 (amended) at the concrete key user-123. -/
theorem empty_string_attributes_omitted_witness :
    buildContext (some ⟨some (PyVal.vstr "user-123"), some (PyVal.vstr ""),
        some (PyVal.vstr ""), some (PyVal.vstr ""), none⟩) =
      Except.ok ⟨⟨"user-123", false, none, none, none⟩, "python-app"⟩ ∧
    create_context (PyVal.vstr "user-123") (PyVal.vstr "") (PyVal.vstr "") (PyVal.vstr "") =
      Except.ok ⟨⟨pyStrip "user-123", false, none, none, none⟩, "python-app"⟩ :=
  empty_string_attributes_omitted "user-123" (by decide)

/-- The environment the SDK start function of app.py interacts with: the
LAUNCHDARKLY_SDK_KEY environment variable (none = unset), whether the
configuration / client-construction calls raise, and the client object
ldclient.get() would hand back, whose initialized field is the value its
readiness predicate settles to within the 10-second polling loop (false =
the loop times out). -/
structure InitEnv where
  sdk_key : Option String
  raises : Bool
  new_client : LDClient
  deriving DecidableEq

/-- The SDK start function of app.py (initialize_launchdarkly_sdk,
lines 63-133): an already-initialized state with a client present returns
True untouched; a missing or empty SDK key, a raising construction, or a
readiness timeout record an error and return False; otherwise the new
client is stored, the initialized flag set and the error cleared. -/
def init_launchdarkly_sdk (st : SdkState) (env : InitEnv) : Bool × SdkState :=
  if st.sdk_initialized && st.ld_client.isSome then
    (true, st)
  else
    match env.sdk_key with
    | none =>
        (false, ⟨st.ld_client, false, some "LAUNCHDARKLY_SDK_KEY environment variable not set"⟩)
    | some k =>
      if k.isEmpty then
        (false, ⟨st.ld_client, false, some "LAUNCHDARKLY_SDK_KEY environment variable not set"⟩)
      else if env.raises then
        (false, ⟨st.ld_client, false, some "Failed to initialize LaunchDarkly SDK"⟩)
      else if env.new_client.initialized then
        (true, ⟨some env.new_client, true, none⟩)
      else
        (false, ⟨some env.new_client, false,
                 some "SDK initialization timed out after 10 seconds"⟩)

/-- Claim C9: once initialization has succeeded and the client object
exists, a repeated start call returns True and leaves the whole state -
client identity, initialized flag and recorded error - unchanged,
whatever the environment now looks like. -/
theorem init_sdk_idempotent_when_ready (st : SdkState) (env : InitEnv) (c : LDClient)
    (h1 : st.sdk_initialized = true) (h2 : st.ld_client = some c) :
    init_launchdarkly_sdk st env = (true, st) := by
  simp [init_launchdarkly_sdk, h1, h2]

/-- Witness for C9 at a concrete ready state and hostile environment. -/
theorem init_sdk_idempotent_when_ready_witness :
    init_launchdarkly_sdk ⟨some ⟨42, true⟩, true, none⟩ ⟨none, true, ⟨43, false⟩⟩ =
      (true, ⟨some ⟨42, true⟩, true, none⟩) :=
  init_sdk_idempotent_when_ready ⟨some ⟨42, true⟩, true, none⟩ ⟨none, true, ⟨43, false⟩⟩
    ⟨42, true⟩ rfl rfl

/-- The possible shapes of the module-global current_context dict of
app.py: None, an empty (falsy) dict, a legacy single-context dict, or the
multi dict with its user and container sub-contexts. Only the multi shape
is ever constructed by the code; the other shapes exist so that the
invariant is a statement rather than a typing triviality. -/
inductive CurrentContext where
  | pynone
  | emptyDict
  | single (user : UserContext)
  | multi (user : UserContext) (containerKey : String)
  deriving DecidableEq

/-- The current_context value created at module load (app.py lines
49-60): an anonymous user context keyed python-anon-(uuid4) plus the
fixed container context. -/
def initial_current_context (uuid : String) : CurrentContext :=
  CurrentContext.multi ⟨"python-anon-" ++ uuid, true, none, none, none⟩ "python-app"

/-- Python falsiness of the current_context value (None and the empty
dict are falsy, any populated dict is truthy). -/
def ctx_falsy : CurrentContext → Bool
  | CurrentContext.pynone => true
  | CurrentContext.emptyDict => true
  | _ => false

/-- The needs_new_key condition of the anonymous branch of the POST
context endpoint (app.py lines 992-996). -/
def needs_new_key : CurrentContext → Bool
  | CurrentContext.multi u _ => !(u.anonymous && u.key.startsWith "python-anon-")
  | _ => true

/-- The key reused by the anonymous branch when needs_new_key is false:
the user sub-context key, with a fresh python-anon key as the dict-get
fallback. -/
def currentUserKey : CurrentContext → String → String
  | CurrentContext.multi u _, _ => u.key
  | _, uuid => "python-anon-" ++ uuid

/-- The JSON body of a POST to the context endpoint, restricted to the
keys the handler reads; none = key absent in the body. -/
structure ContextPostBody where
  ctype : Option PyVal
  email : Option PyVal
  name : Option PyVal
  location : Option PyVal
  deriving DecidableEq

/-- The conditional attribute attachment of the context endpoint: the
Python expression x and x.strip() keeps the raw (unstripped) value when
it is a non-blank string, skips falsy or blank values, and raises
AttributeError on a truthy non-string. -/
def rawAttr : PyVal → Except String (Option String)
  | PyVal.vstr s =>
      if s.isEmpty then Except.ok none
      else if pyStrip s = "" then Except.ok none
      else Except.ok (some s)
  | PyVal.vnull => Except.ok none
  | PyVal.vbool b => if b then Except.error "AttributeError" else Except.ok none
  | PyVal.vint m => if m = 0 then Except.ok none else Except.error "AttributeError"

/-- The POST handler of the context endpoint of app.py (lines 953-1044):
the returned pair is the HTTP status and the value of current_context
after the request. A missing JSON body or a raised AttributeError is
caught and reported as 500 with the context unchanged; a custom request
without a usable email is 400 with the context unchanged; otherwise the
new multi-context replaces the global. -/
def context_endpoint_post (ctx : CurrentContext) (uuid : String)
    (body : Option ContextPostBody) : Nat × CurrentContext :=
  match body with
  | none => (500, ctx)
  | some data =>
    let context_type := data.ctype.getD (PyVal.vstr "anonymous")
    if context_type = PyVal.vstr "custom" then
      match data.email.getD PyVal.vnull with
      | PyVal.vstr e =>
        if e.isEmpty || (pyStrip e).isEmpty then (400, ctx)
        else
          match rawAttr (data.name.getD PyVal.vnull) with
          | Except.error _ => (500, ctx)
          | Except.ok nOpt =>
            match rawAttr (data.location.getD PyVal.vnull) with
            | Except.error _ => (500, ctx)
            | Except.ok lOpt =>
              (200, CurrentContext.multi ⟨e, false, some e, nOpt, lOpt⟩ "python-app")
      | PyVal.vnull => (400, ctx)
      | PyVal.vbool b => if b then (500, ctx) else (400, ctx)
      | PyVal.vint m => if m = 0 then (400, ctx) else (500, ctx)
    else
      let key := if needs_new_key ctx then "python-anon-" ++ uuid else currentUserKey ctx uuid
      match rawAttr (data.location.getD PyVal.vnull) with
      | Except.error _ => (500, ctx)
      | Except.ok lOpt =>
        (200, CurrentContext.multi ⟨key, true, none, none, lOpt⟩ "python-app")

/-- The invariant claim C10 states of current_context: it is the multi
shape, its user key is non-empty and its container key is python-app. -/
def context_invariant : CurrentContext → Prop
  | CurrentContext.multi u ck => u.key ≠ "" ∧ ck = "python-app"
  | _ => False

instance (c : CurrentContext) : Decidable (context_invariant c) :=
  match c with
  | CurrentContext.pynone => isFalse (fun h => h)
  | CurrentContext.emptyDict => isFalse (fun h => h)
  | CurrentContext.single _ => isFalse (fun h => h)
  | CurrentContext.multi u ck =>
      inferInstanceAs (Decidable (u.key ≠ "" ∧ ck = "python-app"))

/-- The prefix of the GET flag endpoint that decides whether the
MISSING_PARAMETER branch fires (app.py lines 746-779): it fires exactly
when the contextKey query parameter is absent or empty and
current_context is falsy. -/
def flag_endpoint_missing_param (context_key_param : Option String)
    (ctx : CurrentContext) : Bool :=
  match context_key_param with
  | none => ctx_falsy ctx
  | some k => if k.isEmpty then ctx_falsy ctx else false

theorem python_anon_key_ne (u : String) : ("python-anon-" ++ u) ≠ "" := by
  intro h
  have h2 := congrArg String.data h
  rw [String.data_append] at h2
  simp at h2

theorem context_post_preserves_invariant (ctx : CurrentContext) (u2 : String)
    (body : Option ContextPostBody) (h : context_invariant ctx) :
    context_invariant (context_endpoint_post ctx u2 body).2 := by
  match body with
  | none => exact h
  | some data =>
    simp only [context_endpoint_post]
    split
    · match hemail : data.email.getD PyVal.vnull with
      | PyVal.vstr e =>
        by_cases hblank : (e.isEmpty || (pyStrip e).isEmpty) = true
        · simp only [hblank, if_true]
          exact h
        · simp only [hblank, Bool.false_eq_true, if_false]
          have hne : e ≠ "" := by
            intro heq
            subst heq
            exact hblank rfl
          match rawAttr (data.name.getD PyVal.vnull) with
          | Except.error m => exact h
          | Except.ok nOpt =>
            match rawAttr (data.location.getD PyVal.vnull) with
            | Except.error m => exact h
            | Except.ok lOpt => exact ⟨hne, rfl⟩
      | PyVal.vnull => exact h
      | PyVal.vbool b =>
        match b with
        | true => exact h
        | false => exact h
      | PyVal.vint m =>
        by_cases hm : m = 0
        · simp only [hm, if_pos rfl]
          exact h
        · simp only [if_neg hm]
          exact h
    · match rawAttr (data.location.getD PyVal.vnull) with
      | Except.error m => exact h
      | Except.ok lOpt =>
        refine ⟨?_, rfl⟩
        by_cases hn : needs_new_key ctx = true
        · simp only [hn, if_true]
          exact python_anon_key_ne u2
        · simp only [Bool.not_eq_true] at hn
          simp only [hn, Bool.false_eq_true, if_false]
          match ctx, hn with
          | CurrentContext.multi u ck, _ => exact h.1

theorem invariant_not_falsy (ctx : CurrentContext) (k : Option String)
    (h : context_invariant ctx) : flag_endpoint_missing_param k ctx = false := by
  have hf : ctx_falsy ctx = false := by
    match ctx, h with
    | CurrentContext.multi u ck, _ => rfl
  match k with
  | none => exact hf
  | some ks =>
    simp only [flag_endpoint_missing_param]
    split
    · exact hf
    · rfl

/-- Claim C10: the startup current_context satisfies the multi-shape
invariant (non-empty user key, container key python-app), every POST to
the context endpoint - custom or anonymous branch, success or handled
failure - preserves it, and under the invariant the MISSING_PARAMETER
fallback of the flag endpoint can never fire. -/
theorem current_context_invariant_holds (uuid u2 : String) (ctx : CurrentContext)
    (body : Option ContextPostBody) (k : Option String)
    (h : context_invariant ctx) :
    context_invariant (initial_current_context uuid) ∧
    context_invariant (context_endpoint_post ctx u2 body).2 ∧
    flag_endpoint_missing_param k ctx = false :=
  ⟨⟨python_anon_key_ne uuid, rfl⟩,
   context_post_preserves_invariant ctx u2 body h,
   invariant_not_falsy ctx k h⟩

/-- Witness for C10 at a concrete invariant-satisfying context and a
custom POST body. -/
theorem current_context_invariant_holds_witness :
    context_invariant (initial_current_context "1234") ∧
    context_invariant (context_endpoint_post
      (CurrentContext.multi ⟨"python-anon-5678", true, none, none, none⟩ "python-app") "9999"
      (some ⟨some (PyVal.vstr "custom"), some (PyVal.vstr "a@b.c"), none, none⟩)).2 ∧
    flag_endpoint_missing_param none
      (CurrentContext.multi ⟨"python-anon-5678", true, none, none, none⟩ "python-app") = false :=
  current_context_invariant_holds "1234" "9999"
    (CurrentContext.multi ⟨"python-anon-5678", true, none, none, none⟩ "python-app")
    (some ⟨some (PyVal.vstr "custom"), some (PyVal.vstr "a@b.c"), none, none⟩)
    none (by decide)
